import Mathlib

/-!
Shallow embedding of the DariVreme order-automation pipeline
(`daily_delivery_automation.py`, `POST_create_quote_id_final.py`,
`send_order_with_quote_id_final.py`) and proofs about the frozen claims.

Spreadsheet cells are modelled by `PyVal` (a Python value that is either
`None`, a string, or a number); a row is a record of optional cells, where
`Option.none` models a key that is absent from the dict. Python exceptions
that escape a function are modelled by `Except PyExn`. The carrier API is an
oracle parameter: a pure function from the request index and payload to the
`(ok, response)` pair that `requests.post` would have produced. Sleeping for
rate limiting has no observable effect in this model and is omitted.
-/

/-- A Python value as produced by the spreadsheet loader: `None`, a string,
or a number (modelled as a rational). -/
inductive PyVal : Type
  | vNone : PyVal
  | vStr : String → PyVal
  | vNum : ℚ → PyVal
deriving DecidableEq

/-- Python truthiness: `None`, `""` and `0` are falsy. -/
def PyVal.truthy : PyVal → Bool
  | .vNone => false
  | .vStr s => !(s == "")
  | .vNum q => !(q == 0)

/-- Python `x in (None, "")`: the membership test used by the
required-field check of `validate_row`. -/
def PyVal.isNoneOrEmpty : PyVal → Bool
  | .vNone => true
  | .vStr s => s == ""
  | .vNum _ => false

/-- Digits of a character list read as a natural number. -/
def digitsVal (l : List Char) : ℕ :=
  l.foldl (fun a c => a * 10 + (c.toNat - 48)) 0

/-- Strip leading and trailing spaces, as Python numeric conversion does. -/
def stripSpaces (l : List Char) : List Char :=
  ((l.dropWhile (· = ' ')).reverse.dropWhile (· = ' ')).reverse

/-- Split off an optional leading sign: `(negative, rest)`. -/
def splitSign : List Char → Bool × List Char
  | '-' :: rest => (true, rest)
  | '+' :: rest => (false, rest)
  | l => (false, l)

/-- Parse digits with at most one dot: `(all digits as one number, count
of fractional digits)`, so the value is the first over ten to the second.
Either side of the dot may be empty but not both. -/
def parseDigitsDot : List Char → Option (ℕ × ℕ)
  | l =>
    match l.splitOn '.' with
    | [ip] =>
      if ip ≠ [] ∧ ip.all Char.isDigit then some (digitsVal ip, 0) else none
    | [ip, fp] =>
      if (ip ++ fp) ≠ [] ∧ (ip ++ fp).all Char.isDigit then
        some (digitsVal (ip ++ fp), fp.length)
      else none
    | _ => none

/-- Model of Python `float(s)` on a string: optional surrounding spaces,
optional sign, decimal digits with at most one dot. -/
def parseFloatStr (s : String) : Option ℚ :=
  let (neg, cs) := splitSign (stripSpaces s.toList)
  (parseDigitsDot cs).map (fun p =>
    mkRat (if neg then -(p.1 : ℤ) else (p.1 : ℤ)) (10 ^ p.2))

/-- Model of Python `float(v)`: numbers pass through, strings are parsed,
`None` raises (`Option.none` here stands for the `ValueError`/`TypeError`
that the caller catches). -/
def pyFloat : PyVal → Option ℚ
  | .vNone => none
  | .vStr s => parseFloatStr s
  | .vNum q => some q

/-- Model of Python `int(s)` on a string: optional spaces, optional sign,
digits only (no dot). -/
def parseIntStr (s : String) : Option ℤ :=
  let (neg, cs) := splitSign (stripSpaces s.toList)
  if cs ≠ [] ∧ cs.all Char.isDigit then
    some (if neg then -(digitsVal cs : ℤ) else (digitsVal cs : ℤ))
  else none

/-- Truncation of a rational toward zero, as Python `int(float)` does. -/
def ratTrunc (q : ℚ) : ℤ := q.num.tdiv (q.den : ℤ)

/-- Model of Python `int(v)`: `Option.none` stands for the
`ValueError`/`TypeError` that `filter_orders_for_today` catches. -/
def pyInt : PyVal → Option ℤ
  | .vNone => none
  | .vStr s => parseIntStr s
  | .vNum q => some (ratTrunc q)

/-- Rendering of a rational for the model of Python `str(v)`; integral
values print as plain integers, which is the only case the pipeline data
exercises. -/
def ratRender (q : ℚ) : String :=
  if q.den = 1 then toString q.num else toString q.num ++ "/" ++ toString q.den

/-- Model of Python `str(v)`. -/
def pyStr : PyVal → String
  | .vNone => "None"
  | .vStr s => s
  | .vNum q => ratRender q

/-- A row of the FINAL_ORDERS sheet: each field is `Option.none` when the
key is absent from the dict. -/
structure Row : Type where
  client_id : Option PyVal
  client_name : Option PyVal
  client_phone : Option PyVal
  client_email : Option PyVal
  deliveryRawAddress : Option PyVal
  deliveryLattitude : Option PyVal
  deliveryLongitude : Option PyVal
  pickupAddressBookId : Option PyVal
  pickup_time_utc : Option PyVal
  restaurant_name : Option PyVal
  deliveryDetails : Option PyVal
  deliveryFrequency : Option PyVal
  order_id : Option PyVal
  pickup_code : Option PyVal
  ADDRESS_CITY_NAME : Option PyVal
  ADDRESS_COUNTRY : Option PyVal
  Address_postal_code : Option PyVal
deriving DecidableEq

/-- A cell is "missing" for the required-field check when the key is absent
or the value is `None` or the empty string. -/
def cellMissing (c : Option PyVal) : Bool :=
  match c with
  | none => true
  | some v => v.isNoneOrEmpty

/-- The required fields of `validate_row`, in source order, paired with
their names for the error message. -/
def requiredCells (r : Row) : List (String × Option PyVal) :=
  [("client_id", r.client_id), ("client_name", r.client_name),
   ("client_phone", r.client_phone), ("client_email", r.client_email),
   ("deliveryRawAddress", r.deliveryRawAddress),
   ("deliveryLattitude", r.deliveryLattitude),
   ("deliveryLongitude", r.deliveryLongitude),
   ("pickupAddressBookId", r.pickupAddressBookId),
   ("pickup_time_utc", r.pickup_time_utc),
   ("restaurant_name", r.restaurant_name)]

/-- Names of the required fields that are missing, in source order. -/
def missingFields (r : Row) : List String :=
  (requiredCells r).filterMap (fun p => if cellMissing p.2 then some p.1 else none)

/-- A Python exception escaping a pipeline function. -/
inductive PyExn : Type
  | typeError : String → PyExn
  | keyError : String → PyExn
  | missingClientDetails : PyVal → PyVal → PyVal → PyExn
deriving DecidableEq

/-- Last char of a string is `Z`: model of `.endswith("Z")`. -/
def endsWithZ (s : String) : Bool := s.toList.getLast? == some 'Z'

/-- Model of `"@" in email and "." in email.split("@")[-1]`. -/
def emailFormatOk (s : String) : Bool :=
  s.toList.contains '@' && ((s.toList.reverse.takeWhile (· ≠ '@')).contains '.')

/-- `validate_row` from `POST_create_quote_id_final.py`.
`Except.error` models an exception escaping the function (the membership
and `len` operations raise `TypeError` on non-string values); the `ok`
payload is the optional violation message the Python function returns. -/
def validate_row (r : Row) : Except PyExn (Option String) :=
  if missingFields r ≠ [] then
    .ok (some ("Missing required fields: " ++ String.intercalate (", ") (missingFields r)))
  else if (pyFloat ((r.deliveryLattitude).getD .vNone)).isNone
       ∨ (pyFloat ((r.deliveryLongitude).getD .vNone)).isNone then
    .ok (some ("deliveryLattitude/deliveryLongitude must be numeric"))
  else
    match (r.pickup_time_utc).getD .vNone with
    | .vStr t =>
      if !(endsWithZ t) then
        .ok (some ("pickup_time_utc must be ISO8601 UTC string ending with Z"))
      else
        match (r.client_email).getD (.vStr "") with
        | .vStr e =>
          if !(emailFormatOk e) then
            .ok (some ("client_email must be a valid email format"))
          else if (pyStr ((r.client_phone).getD (.vStr ""))).length < 8 then
            .ok (some ("client_phone must be at least 8 characters"))
          else
            match (r.pickupAddressBookId).getD (.vStr "") with
            | .vStr pid =>
              if pid.length < 30 then
                .ok (some ("pickupAddressBookId must be a valid UUID format"))
              else .ok none
            | _ => .error (.typeError ("object has no len"))
        | _ => .error (.typeError ("argument of type is not iterable"))
    | _ => .ok (some ("pickup_time_utc must be ISO8601 UTC string ending with Z"))

/-- The quote request payload built by `row_to_payload`; `Option.none` from
the builder models the `KeyError`/`ValueError` a bad row would raise. -/
structure QuotePayload : Type where
  addressBookId : PyVal
  pickupTime : PyVal
  rawAddress : PyVal
  latitude : ℚ
  longitude : ℚ
  details : PyVal
deriving DecidableEq

/-- `row_to_payload` from `POST_create_quote_id_final.py`: direct indexing
raises `KeyError` on an absent key and `float` raises on a non-numeric
cell, both modelled by `Option.none`. -/
def row_to_payload (r : Row) : Option QuotePayload :=
  match r.pickupAddressBookId, r.pickup_time_utc, r.deliveryRawAddress,
        r.deliveryLattitude, r.deliveryLongitude with
  | some pab, some pt, some ra, some latv, some lonv =>
    match pyFloat latv, pyFloat lonv with
    | some la, some lo =>
      some { addressBookId := pab, pickupTime := pt, rawAddress := ra,
             latitude := la, longitude := lo,
             details := (r.deliveryDetails).getD (.vStr "") }
    | _, _ => none
  | _, _, _, _, _ => none

/-- A carrier API response body: the `quoteId` key (absent, or present with
some value) plus the rest of the JSON body, carried unchanged. -/
structure Response : Type where
  quoteId : Option PyVal
  body : String
deriving DecidableEq

/-- The `client_details` sub-record packaged into every quote success. -/
structure ClientDetails : Type where
  client_id : PyVal
  name : PyVal
  phone : PyVal
  email : PyVal
deriving DecidableEq

/-- The `restaurant_details` sub-record packaged into every quote success. -/
structure RestaurantDetails : Type where
  name : PyVal
  pickup_address_book_id : PyVal
deriving DecidableEq

/-- The `order_details` sub-record packaged into every quote success. -/
structure OrderDetails : Type where
  order_description : PyVal
  delivery_frequency : PyVal
  pickup_code : PyVal
  city : PyVal
  country : PyVal
  postal_code : PyVal
deriving DecidableEq

/-- Packaging of `client_details` in `process_orders_final`: `row.get`
with the source defaults, used only when the key is absent. -/
def mkClientDetails (r : Row) : ClientDetails :=
  { client_id := (r.client_id).getD (.vStr "Unknown"),
    name := (r.client_name).getD (.vStr "Unknown Client"),
    phone := (r.client_phone).getD (.vStr "Unknown Phone"),
    email := (r.client_email).getD (.vStr "Unknown Email") }

/-- Packaging of `restaurant_details` in `process_orders_final`. -/
def mkRestaurantDetails (r : Row) : RestaurantDetails :=
  { name := (r.restaurant_name).getD (.vStr "Unknown Restaurant"),
    pickup_address_book_id := (r.pickupAddressBookId).getD (.vStr "Unknown") }

/-- Packaging of `order_details` in `process_orders_final`. -/
def mkOrderDetails (r : Row) : OrderDetails :=
  { order_description := (r.order_id).getD (.vStr "Unknown"),
    delivery_frequency := (r.deliveryFrequency).getD (.vNum 0),
    pickup_code := (r.pickup_code).getD (.vStr "Unknown"),
    city := (r.ADDRESS_CITY_NAME).getD (.vStr "Unknown"),
    country := (r.ADDRESS_COUNTRY).getD (.vStr "Unknown"),
    postal_code := (r.Address_postal_code).getD (.vStr "Unknown") }

/-- A success entry of the quote-stage summary, as appended by
`process_orders_final`. -/
structure QuoteSuccess : Type where
  index : ℕ
  row : Row
  response : Response
  client_details : ClientDetails
  restaurant_details : RestaurantDetails
  order_details : OrderDetails
deriving DecidableEq

/-- The success entry `process_orders_final` appends for row `r` at loop
index `i` with carrier response `resp`. -/
def mkQuoteSuccess (i : ℕ) (r : Row) (resp : Response) : QuoteSuccess :=
  { index := i, row := r, response := resp,
    client_details := mkClientDetails r,
    restaurant_details := mkRestaurantDetails r,
    order_details := mkOrderDetails r }

/-- The reason recorded in a quote-stage failure entry: a validation
message or the carrier error response. -/
inductive QuoteFailReason : Type
  | msg : String → QuoteFailReason
  | resp : Response → QuoteFailReason
deriving DecidableEq

/-- A failure entry of the quote-stage summary. -/
structure QuoteFailure : Type where
  index : ℕ
  row : Row
  reason : QuoteFailReason
deriving DecidableEq

/-- The quote-stage batch summary returned by `process_orders_final`. -/
structure QuoteSummary : Type where
  total : ℕ
  successes : List QuoteSuccess
  failures : List QuoteFailure
  success_rate : ℚ
deriving DecidableEq

/-- The sequential loop of `process_orders_final`. The carrier is the
oracle `send`, mapping the 1-based loop index and the payload to the
`(ok, response)` outcome of the POST. An exception escaping `validate_row`
or `row_to_payload` aborts the whole loop. -/
def quoteLoop (send : ℕ → QuotePayload → Bool × Response) :
    ℕ → List Row → List QuoteSuccess → List QuoteFailure →
    Except PyExn (List QuoteSuccess × List QuoteFailure)
  | _, [], s, f => .ok (s, f)
  | i, r :: rest, s, f =>
    match validate_row r with
    | .error e => .error e
    | .ok (some m) =>
      quoteLoop send (i + 1) rest s
        (f ++ [{ index := i, row := r, reason := .msg ("Validation error: " ++ m) }])
    | .ok none =>
      match row_to_payload r with
      | none => .error (.keyError ("row_to_payload"))
      | some p =>
        match send i p with
        | (true, resp) => quoteLoop send (i + 1) rest (s ++ [mkQuoteSuccess i r resp]) f
        | (false, resp) =>
          quoteLoop send (i + 1) rest s
            (f ++ [{ index := i, row := r, reason := .resp resp }])

/-- `process_orders_final` from `POST_create_quote_id_final.py`: runs the
loop and assembles the summary, whose `total` is the number of successes
plus failures and whose `success_rate` is `successes/total*100`, or `0`
when the total is zero. -/
def process_orders_final (send : ℕ → QuotePayload → Bool × Response)
    (rows : List Row) : Except PyExn QuoteSummary :=
  (quoteLoop send 1 rows [] []).map (fun sf =>
    { total := sf.1.length + sf.2.length,
      successes := sf.1,
      failures := sf.2,
      success_rate :=
        if sf.1.length + sf.2.length > 0 then
          (sf.1.length : ℚ) / ((sf.1.length : ℚ) + (sf.2.length : ℚ)) * 100
        else 0 })

/-- An order-stage context (`quote_data` dict) as built by
`extract_quote_ids_from_successes` or the daily-automation bridge. -/
structure QuoteData : Type where
  quote_id : PyVal
  original_row : Row
  quote_response : Response
  client_details : ClientDetails
  restaurant_details : RestaurantDetails
  order_details : OrderDetails
  index : ℕ
deriving DecidableEq

/-- Whether a quote success has a truthy `quoteId` in its response, the
`if quote_id:` test of `extract_quote_ids_from_successes`. -/
def hasQuoteId (s : QuoteSuccess) : Bool :=
  match s.response.quoteId with
  | some v => v.truthy
  | none => false

/-- The context built from a quote success by
`extract_quote_ids_from_successes`, copying the stored sub-records. -/
def mkQuoteDataOfSuccess (s : QuoteSuccess) : QuoteData :=
  { quote_id := (s.response.quoteId).getD .vNone,
    original_row := s.row,
    quote_response := s.response,
    client_details := s.client_details,
    restaurant_details := s.restaurant_details,
    order_details := s.order_details,
    index := s.index }

/-- `extract_quote_ids_from_successes` from
`send_order_with_quote_id_final.py`: keeps each success whose response has
a truthy `quoteId`, in input order, and skips the others with a warning. -/
def extract_quote_ids_from_successes (successes : List QuoteSuccess) : List QuoteData :=
  successes.filterMap (fun s =>
    if hasQuoteId s then some (mkQuoteDataOfSuccess s) else none)

/-- The order payload built by `create_order_payload`. -/
structure OrderPayload : Type where
  contact_name : PyVal
  contact_phone : PyVal
  contact_email : PyVal
  pickupOrderCode : String
  contentType : String
  description : PyVal
deriving DecidableEq

/-- `create_order_payload` from `send_order_with_quote_id_final.py`.
`now` is the value of `time.time()` at the call. The `ValueError` raised
when a contact field is falsy is modelled by `Except.error`; the contact
block of a returned payload is taken verbatim from `client_details`. -/
def create_order_payload (now : ℕ) (quote_data : QuoteData)
    (client_details : ClientDetails) : Except PyExn OrderPayload :=
  let code := "ORD" ++ toString now ++ toString quote_data.index
  let desc := (quote_data.original_row.order_id).getD (.vStr "Food delivery order")
  if !(client_details.name.truthy) ∨ !(client_details.phone.truthy)
     ∨ !(client_details.email.truthy) then
    .error (.missingClientDetails client_details.name client_details.phone
      client_details.email)
  else
    .ok { contact_name := client_details.name,
          contact_phone := client_details.phone,
          contact_email := client_details.email,
          pickupOrderCode := code,
          contentType := "FOOD",
          description := desc }

/-- A success entry of the order-stage summary. -/
structure OrderSuccess : Type where
  index : ℕ
  quote_id : PyVal
  original_row : Row
  order_response : Response
  pickup_order_code : String
  client_details : ClientDetails
  restaurant_details : RestaurantDetails
  order_details : OrderDetails
deriving DecidableEq

/-- A failure entry of the order-stage summary. -/
structure OrderFailure : Type where
  index : ℕ
  quote_id : PyVal
  original_row : Row
  err : Response
deriving DecidableEq

/-- The order-stage batch summary returned by
`process_orders_from_quotes_final`. -/
structure OrderSummary : Type where
  total_processed : ℕ
  successful_orders : List OrderSuccess
  failed_orders : List OrderFailure
  success_rate : ℚ
deriving DecidableEq

/-- The success entry appended by the order loop. -/
def mkOrderSuccess (i : ℕ) (qd : QuoteData) (resp : Response) (code : String) :
    OrderSuccess :=
  { index := i, quote_id := qd.quote_id, original_row := qd.original_row,
    order_response := resp, pickup_order_code := code,
    client_details := qd.client_details,
    restaurant_details := qd.restaurant_details,
    order_details := qd.order_details }

/-- The sequential loop of `process_orders_from_quotes_final`; `send` is
the carrier oracle (1-based loop index, quote id, payload) and `clock`
gives the `time.time()` value at each iteration. `create_order_payload`
is called outside any handler, so its exception aborts the whole loop. -/
def orderLoop (send : ℕ → PyVal → OrderPayload → Bool × Response)
    (clock : ℕ → ℕ) :
    ℕ → List QuoteData → List OrderSuccess → List OrderFailure →
    Except PyExn (List OrderSuccess × List OrderFailure)
  | _, [], s, f => .ok (s, f)
  | i, qd :: rest, s, f =>
    match create_order_payload (clock i) qd qd.client_details with
    | .error e => .error e
    | .ok p =>
      match send i qd.quote_id p with
      | (true, resp) =>
        orderLoop send clock (i + 1) rest
          (s ++ [mkOrderSuccess i qd resp p.pickupOrderCode]) f
      | (false, resp) =>
        orderLoop send clock (i + 1) rest s
          (f ++ [{ index := i, quote_id := qd.quote_id,
                   original_row := qd.original_row, err := resp }])

/-- `process_orders_from_quotes_final` from
`send_order_with_quote_id_final.py`: runs the loop and assembles the
summary, whose `total_processed` is the length of the input context list
and whose `success_rate` is `successes/total*100`, or `0` when the input
list is empty. Logging has no effect on the summary and is omitted. -/
def process_orders_from_quotes_final
    (send : ℕ → PyVal → OrderPayload → Bool × Response) (clock : ℕ → ℕ)
    (quote_data_list : List QuoteData) : Except PyExn OrderSummary :=
  (orderLoop send clock 1 quote_data_list [] []).map (fun sf =>
    { total_processed := quote_data_list.length,
      successful_orders := sf.1,
      failed_orders := sf.2,
      success_rate :=
        if quote_data_list.length = 0 then 0
        else (sf.1.length : ℚ) / (quote_data_list.length : ℚ) * 100 })

/-- `DELIVERY_FREQUENCY_3_DAYS` from `daily_delivery_automation.py`. -/
def DELIVERY_FREQUENCY_3_DAYS : List ℕ := [0, 2, 4]

/-- `DELIVERY_FREQUENCY_5_DAYS` from `daily_delivery_automation.py`. -/
def DELIVERY_FREQUENCY_5_DAYS : List ℕ := [0, 1, 2, 3, 4]

/-- `should_process_client` from `daily_delivery_automation.py`, paired
with whether the unknown-frequency warning was logged: weekends return
early, frequency 3 and 5 look up their weekday lists, anything else
returns false after logging a warning. -/
def should_process_client_core (delivery_frequency : ℤ) (current_weekday : ℕ) :
    Bool × Bool :=
  if current_weekday > 4 then (false, false)
  else if delivery_frequency = 3 then
    (DELIVERY_FREQUENCY_3_DAYS.contains current_weekday, false)
  else if delivery_frequency = 5 then
    (DELIVERY_FREQUENCY_5_DAYS.contains current_weekday, false)
  else (false, true)

/-- The boolean result of `should_process_client`. -/
def should_process_client (delivery_frequency : ℤ) (current_weekday : ℕ) : Bool :=
  (should_process_client_core delivery_frequency current_weekday).1

/-- `filter_orders_for_today` from `daily_delivery_automation.py`: rows
whose `deliveryFrequency` fails `int()` are skipped with a warning (the
`except` branch continues the loop); the rest are kept in input order when
`should_process_client` holds. -/
def filter_orders_for_today (current_weekday : ℕ) (orders : List Row) : List Row :=
  orders.filter (fun r =>
    match pyInt ((r.deliveryFrequency).getD (.vNum 0)) with
    | none => false
    | some f => should_process_client f current_weekday)

/-- The inline bridge of `process_daily_orders`: builds a `quote_data`
dict per quote success via `success["response"]["quoteId"]`, which raises
`KeyError` when the key is absent (no skipping, unlike
`extract_quote_ids_from_successes`); `index` is the running 0-based length
of the list built so far. -/
def dailyQuoteData : List QuoteSuccess → ℕ → Except PyExn (List QuoteData)
  | [], _ => .ok []
  | s :: rest, k =>
    match s.response.quoteId with
    | none => .error (.keyError ("quoteId"))
    | some q =>
      (dailyQuoteData rest (k + 1)).map (fun l =>
        { quote_id := q, original_row := s.row, quote_response := s.response,
          client_details := s.client_details,
          restaurant_details := s.restaurant_details,
          order_details := s.order_details, index := k } :: l)

/-- A failure entry of the merged daily results: the early quote-failure
branch stores quote failures, the normal branch stores order failures. -/
inductive RunFailure : Type
  | quoteF : QuoteFailure → RunFailure
  | orderF : OrderFailure → RunFailure
deriving DecidableEq

/-- The results dict returned by `process_daily_orders`; `success_rate`
and `message` are `Option.none` when the branch that built the dict did
not put the key in. -/
structure RunResults : Type where
  total_processed : ℕ
  successful_orders : List OrderSuccess
  failed_orders : List RunFailure
  success_rate : Option ℚ
  message : Option String
deriving DecidableEq

/-- `process_daily_orders` from `daily_delivery_automation.py`: filters
the rows due today, runs the quote stage, bridges the successes into contexts
and runs the order stage. Each of the three early-return branches and the
final merge is reproduced; an exception escaping any stage propagates. -/
def process_daily_orders (current_weekday : ℕ) (orders : List Row)
    (sendQ : ℕ → QuotePayload → Bool × Response)
    (sendO : ℕ → PyVal → OrderPayload → Bool × Response)
    (clock : ℕ → ℕ) : Except PyExn RunResults :=
  let today := filter_orders_for_today current_weekday orders
  if today.isEmpty then
    .ok { total_processed := 0, successful_orders := [], failed_orders := [],
          success_rate := none, message := some ("No orders scheduled for today") }
  else
    match process_orders_final sendQ today with
    | .error e => .error e
    | .ok qs =>
      if qs.successes.isEmpty then
        .ok { total_processed := today.length, successful_orders := [],
              failed_orders := qs.failures.map .quoteF,
              success_rate := none, message := some ("Quote creation failed") }
      else
        match dailyQuoteData qs.successes 0 with
        | .error e => .error e
        | .ok qdl =>
          match process_orders_from_quotes_final sendO clock qdl with
          | .error e => .error e
          | .ok os =>
            .ok { total_processed := os.total_processed,
                  successful_orders := os.successful_orders,
                  failed_orders := os.failed_orders.map .orderF,
                  success_rate := some os.success_rate,
                  message := none }

/-- The CLI exit code of `main` in `daily_delivery_automation.py`:
`load` is the spreadsheet load outcome (`Option.none` when `load_data`
fails, which makes `run_daily_automation` return a dict with an `error`
key and `main` return 1). A dict without an `error` key makes `main`
return 0; an uncaught exception ends the interpreter with exit code 1. -/
def mainExitCode (load : Option (List Row)) (current_weekday : ℕ)
    (sendQ : ℕ → QuotePayload → Bool × Response)
    (sendO : ℕ → PyVal → OrderPayload → Bool × Response)
    (clock : ℕ → ℕ) : ℕ :=
  match load with
  | none => 1
  | some orders =>
    match process_daily_orders current_weekday orders sendQ sendO clock with
    | .error _ => 1
    | .ok _ => 0

deriving instance DecidableEq for Except

/-- Both coordinate cells convert under `float()`. -/
def coordsNumeric (r : Row) : Bool :=
  !(pyFloat ((r.deliveryLattitude).getD .vNone)).isNone
    && !(pyFloat ((r.deliveryLongitude).getD .vNone)).isNone

/-- The pickup time cell is a string ending with `Z`. -/
def pickupTimeOk (r : Row) : Bool :=
  match (r.pickup_time_utc).getD .vNone with
  | .vStr t => endsWithZ t
  | _ => false

/-- The email cell is a string containing `@` with a dot after the last
`@`. -/
def emailCellOk (r : Row) : Bool :=
  match (r.client_email).getD (.vStr "") with
  | .vStr e => emailFormatOk e
  | _ => false

/-- `str()` of the phone cell has length at least 8 (not below 8). -/
def phoneLenOk (r : Row) : Bool :=
  ! decide ((pyStr ((r.client_phone).getD (.vStr ""))).length < 8)

/-- The pickup address book id cell is a string of length at least 30. -/
def pickupIdOk (r : Row) : Bool :=
  match (r.pickupAddressBookId).getD (.vStr "") with
  | .vStr p => ! decide (p.length < 30)
  | _ => false

/-- The conjunction of the checks `validate_row` actually performs:
all ten required fields present and non-empty, coordinates numeric,
pickup time a string ending with `Z`, email well formed, phone of length
at least 8, pickup address book id of length at least 30. -/
def validationChecks (r : Row) : Bool :=
  (missingFields r).isEmpty && coordsNumeric r && pickupTimeOk r
    && emailCellOk r && phoneLenOk r && pickupIdOk r

/-- A fully valid example row, with every cell a plain string. -/
def exRow : Row :=
  { client_id := some (.vStr "C-001"),
    client_name := some (.vStr "Alice Client"),
    client_phone := some (.vStr "35912345678"),
    client_email := some (.vStr "alice@example.com"),
    deliveryRawAddress := some (.vStr "1 Main Street Sofia"),
    deliveryLattitude := some (.vStr "42.6977"),
    deliveryLongitude := some (.vStr "23.3219"),
    pickupAddressBookId := some (.vStr "123e4567-e89b-12d3-a456-426614174000"),
    pickup_time_utc := some (.vStr "2030-01-01T10:00:00Z"),
    restaurant_name := some (.vStr "Resto One"),
    deliveryDetails := some (.vStr "Ring the bell"),
    deliveryFrequency := some (.vStr "5"),
    order_id := some (.vStr "Lunch Menu A"),
    pickup_code := none,
    ADDRESS_CITY_NAME := none,
    ADDRESS_COUNTRY := none,
    Address_postal_code := none }

theorem validate_row_eq_ok_none_iff (r : Row) :
    validate_row r = Except.ok none ↔ validationChecks r = true := by
  unfold validate_row validationChecks coordsNumeric pickupTimeOk emailCellOk phoneLenOk pickupIdOk
  by_cases h1 : missingFields r = []
  · by_cases hA : pyFloat ((r.deliveryLattitude).getD .vNone) = none
    · simp [h1, hA]
    · by_cases hB : pyFloat ((r.deliveryLongitude).getD .vNone) = none
      · simp [h1, hA, hB, Option.isNone_iff_eq_none]
      · rcases hpt : (r.pickup_time_utc).getD .vNone with _ | t | q
        · simp [h1, hA, hB, hpt, Option.isNone_iff_eq_none]
        · by_cases h3 : endsWithZ t = true
          · rcases hem : (r.client_email).getD (.vStr "") with _ | e | q2
            · simp [h1, hA, hB, hpt, h3, hem, Option.isNone_iff_eq_none]
            · by_cases h4 : emailFormatOk e = true
              · by_cases h5 : (pyStr ((r.client_phone).getD (.vStr ""))).length < 8
                · simp [h1, hA, hB, hpt, h3, hem, h4, h5, Option.isNone_iff_eq_none]
                · rcases hpid : (r.pickupAddressBookId).getD (.vStr "") with _ | p | q3
                  · simp [h1, hA, hB, hpt, h3, hem, h4, h5, hpid, Option.isNone_iff_eq_none]
                  · by_cases h6 : p.length < 30
                    · simp [h1, hA, hB, hpt, h3, hem, h4, h5, hpid, h6,
                        Option.isNone_iff_eq_none]
                    · simp [h1, hA, hB, hpt, h3, hem, h4, h5, hpid, h6,
                        Option.isNone_iff_eq_none, Option.isSome_iff_ne_none]
                  · simp [h1, hA, hB, hpt, h3, hem, h4, h5, hpid, Option.isNone_iff_eq_none]
              · simp [h1, hA, hB, hpt, h3, hem, h4, Option.isNone_iff_eq_none]
            · simp [h1, hA, hB, hpt, h3, hem, Option.isNone_iff_eq_none]
          · simp [h1, hA, hB, hpt, h3, Option.isNone_iff_eq_none]
        · simp [h1, hA, hB, hpt, Option.isNone_iff_eq_none]
  · simp [h1, List.isEmpty_iff]

theorem missingFields_eq_nil_iff (r : Row) :
    missingFields r = [] ↔
      (cellMissing r.client_id = false ∧ cellMissing r.client_name = false ∧
       cellMissing r.client_phone = false ∧ cellMissing r.client_email = false ∧
       cellMissing r.deliveryRawAddress = false ∧ cellMissing r.deliveryLattitude = false ∧
       cellMissing r.deliveryLongitude = false ∧ cellMissing r.pickupAddressBookId = false ∧
       cellMissing r.pickup_time_utc = false ∧ cellMissing r.restaurant_name = false) := by
  simp [missingFields, requiredCells, List.filterMap_eq_nil_iff]

/-- The contact sub-record of a context has truthy name, phone and email. -/
def contactComplete (qd : QuoteData) : Bool :=
  qd.client_details.name.truthy && qd.client_details.phone.truthy
    && qd.client_details.email.truthy

theorem create_order_payload_error (now : ℕ) (qd : QuoteData) (cd : ClientDetails)
    (h : cd.name.truthy = false ∨ cd.phone.truthy = false ∨ cd.email.truthy = false) :
    create_order_payload now qd cd
      = .error (.missingClientDetails cd.name cd.phone cd.email) := by
  unfold create_order_payload
  rcases h with h | h | h <;> simp [h]

theorem create_order_payload_ok (now : ℕ) (qd : QuoteData) (cd : ClientDetails)
    (h1 : cd.name.truthy = true) (h2 : cd.phone.truthy = true)
    (h3 : cd.email.truthy = true) :
    create_order_payload now qd cd
      = .ok { contact_name := cd.name, contact_phone := cd.phone,
              contact_email := cd.email,
              pickupOrderCode := "ORD" ++ toString now ++ toString qd.index,
              contentType := "FOOD",
              description := (qd.original_row.order_id).getD (.vStr "Food delivery order") } := by
  unfold create_order_payload
  simp [h1, h2, h3]

theorem extract_eq_filter_map (l : List QuoteSuccess) :
    extract_quote_ids_from_successes l
      = (l.filter hasQuoteId).map mkQuoteDataOfSuccess := by
  induction l with
  | nil => rfl
  | cons s rest ih =>
    by_cases h : hasQuoteId s = true
    · simp [extract_quote_ids_from_successes, List.filterMap_cons, List.filter_cons, h] at ih ⊢
      exact ih
    · simp [extract_quote_ids_from_successes, List.filterMap_cons, List.filter_cons,
        Bool.of_not_eq_true h, h] at ih ⊢
      exact ih

theorem orderLoop_ok_length (send : ℕ → PyVal → OrderPayload → Bool × Response)
    (clock : ℕ → ℕ) :
    ∀ (qdl : List QuoteData) (i : ℕ) (s : List OrderSuccess) (f : List OrderFailure)
      (out : List OrderSuccess × List OrderFailure),
      orderLoop send clock i qdl s f = .ok out →
      out.1.length + out.2.length = s.length + f.length + qdl.length := by
  intro qdl
  induction qdl with
  | nil =>
    intro i s f out h
    unfold orderLoop at h
    cases h
    simp
  | cons qd rest ih =>
    intro i s f out h
    unfold orderLoop at h
    cases hc : create_order_payload (clock i) qd qd.client_details with
    | error e =>
      simp only [hc] at h
      cases h
    | ok p =>
      simp only [hc] at h
      cases hs : send i qd.quote_id p with
      | mk ok resp =>
        simp only [hs] at h
        cases ok with
        | true =>
          have := ih (i + 1) (s ++ [mkOrderSuccess i qd resp p.pickupOrderCode]) f out h
          simp at this
          simp only [List.length_cons]
          omega
        | false =>
          have := ih (i + 1) s
            (f ++ [{ index := i, quote_id := qd.quote_id,
                     original_row := qd.original_row, err := resp }]) out h
          simp at this
          simp only [List.length_cons]
          omega

theorem orderLoop_ok_of_complete (send : ℕ → PyVal → OrderPayload → Bool × Response)
    (clock : ℕ → ℕ) :
    ∀ (qdl : List QuoteData) (i : ℕ) (s : List OrderSuccess) (f : List OrderFailure),
      (∀ qd ∈ qdl, contactComplete qd = true) →
      ∃ out, orderLoop send clock i qdl s f = .ok out := by
  intro qdl
  induction qdl with
  | nil =>
    intro i s f _
    exact ⟨(s, f), rfl⟩
  | cons qd rest ih =>
    intro i s f hall
    have hqd : contactComplete qd = true := hall qd (by simp)
    have hrest : ∀ x ∈ rest, contactComplete x = true := by
      intro x hx; exact hall x (by simp [hx])
    unfold contactComplete at hqd
    simp only [Bool.and_eq_true] at hqd
    have hok := create_order_payload_ok (clock i) qd qd.client_details
      hqd.1.1 hqd.1.2 hqd.2
    unfold orderLoop
    simp only [hok]
    cases hs : send i qd.quote_id
      { contact_name := qd.client_details.name,
        contact_phone := qd.client_details.phone,
        contact_email := qd.client_details.email,
        pickupOrderCode := "ORD" ++ toString (clock i) ++ toString qd.index,
        contentType := "FOOD",
        description := (qd.original_row.order_id).getD (.vStr "Food delivery order") } with
    | mk ok resp =>
      cases ok with
      | true => exact ih (i + 1) _ f hrest
      | false => exact ih (i + 1) s _ hrest

/-- A successful quote response carrying a quote id. -/
def exRespOk : Response := { quoteId := some (.vStr "Q-12345"), body := "quote created" }

/-- An error response without a quote id. -/
def exRespErr : Response := { quoteId := none, body := "400 bad request" }

/-- A successful order response. -/
def exOrderResp : Response := { quoteId := none, body := "order created" }

/-- Quote oracle that always succeeds. -/
def exSendQok : ℕ → QuotePayload → Bool × Response := fun _ _ => (true, exRespOk)

/-- Quote oracle that always fails. -/
def exSendQfail : ℕ → QuotePayload → Bool × Response := fun _ _ => (false, exRespErr)

/-- Quote oracle that succeeds only for the first request. -/
def exSendQfirst : ℕ → QuotePayload → Bool × Response :=
  fun i _ => if i = 1 then (true, exRespOk) else (false, exRespErr)

/-- Order oracle that always succeeds. -/
def exSendOok : ℕ → PyVal → OrderPayload → Bool × Response :=
  fun _ _ _ => (true, exOrderResp)

/-- Order oracle that always fails. -/
def exSendOfail : ℕ → PyVal → OrderPayload → Bool × Response :=
  fun _ _ _ => (false, exRespErr)

/-- A fixed wall clock for the examples. -/
def exClock : ℕ → ℕ := fun _ => 42

/-- A second valid row, due on the same weekdays as `exRow`. -/
def exRow2 : Row := { exRow with client_id := some (.vStr "C-002") }

/-- `exRow` with an out-of-range (but numeric) latitude. -/
def exRow4 : Row := { exRow with deliveryLattitude := some (.vStr "1000.0") }

/-- `exRow` with the numeric value `0` in the `client_name` cell. -/
def exRow10 : Row := { exRow with client_name := some (.vNum 0) }

/-- `exRow` with an empty `client_name` cell value. -/
def exRowNoName : Row := { exRow with client_name := some (.vStr "") }

/-- The order-stage context built from a quote success on `exRow`. -/
def exQdGood : QuoteData := mkQuoteDataOfSuccess (mkQuoteSuccess 1 exRow exRespOk)

/-- The order-stage context built from a quote success on `exRow10`. -/
def exQd10 : QuoteData := mkQuoteDataOfSuccess (mkQuoteSuccess 1 exRow10 exRespOk)

/-- The order-stage context built from a quote success on `exRowNoName`. -/
def exQdBad : QuoteData := mkQuoteDataOfSuccess (mkQuoteSuccess 1 exRowNoName exRespOk)

/-- The quote summary `process_orders_final` produces for `[exRow]` under
the always-successful oracle. -/
def exQuoteSummary : QuoteSummary :=
  { total := 1, successes := [mkQuoteSuccess 1 exRow exRespOk], failures := [],
    success_rate := ((1 : ℕ) : ℚ) / (((1 : ℕ) : ℚ) + ((0 : ℕ) : ℚ)) * 100 }

/-- C6 counterexample: on Saturday (weekday 5) with the unrecognized
frequency 7, `should_process_client` returns false but emits no warning
signal (the weekend early-return precedes the frequency dispatch),
contradicting the claim that every unrecognized frequency yields a
warning. -/
theorem schedule_warning_cex :
    should_process_client 7 5 = false
      ∧ (should_process_client_core 7 5).2 = false := by decide

/-- C6 amended: `is_due` is true for frequency 3 exactly on weekdays
{0,2,4} and for frequency 5 exactly on {0,1,2,3,4}; it is false on
weekends and for every unrecognized frequency, and the unknown-frequency
warning is emitted exactly when the weekday is Monday to Friday. -/
theorem schedule_rule_amended (f : ℤ) (wd : ℕ) :
    (should_process_client 3 wd = true ↔ (wd = 0 ∨ wd = 2 ∨ wd = 4))
      ∧ (should_process_client 5 wd = true ↔ wd ≤ 4)
      ∧ (5 ≤ wd → should_process_client f wd = false)
      ∧ (f ≠ 3 → f ≠ 5 → should_process_client f wd = false
          ∧ ((should_process_client_core f wd).2 = true ↔ wd ≤ 4)) := by
  unfold should_process_client should_process_client_core
  unfold DELIVERY_FREQUENCY_3_DAYS DELIVERY_FREQUENCY_5_DAYS
  by_cases h : wd > 4
  · refine ⟨?_, ?_, ?_, ?_⟩ <;> intros <;> simp [h] <;> omega
  · have h4 : wd ≤ 4 := by omega
    refine ⟨?_, ?_, ?_, ?_⟩
    · simp only [h, if_false]
      interval_cases wd <;> simp
    · simp only [h, if_false]
      interval_cases wd <;> simp
    · intro h5
      omega
    · intro h3 h5
      simp [h, h3, h5, h4]

/-- C6 witness: at frequency 7 on Tuesday the amended rule gives false
with a warning. -/
theorem schedule_rule_amended_witness :
    should_process_client 7 2 = false
      ∧ ((should_process_client_core 7 2).2 = true ↔ (2 : ℕ) ≤ 4) :=
  (schedule_rule_amended 7 2).2.2.2 (by decide) (by decide)

/-- Spec-side predicate, following the claim wording for comparison with
`validate_row`: the latitude cell is numeric and lies in [-90, 90]. -/
def specLatitudeInRange (r : Row) : Bool :=
  match pyFloat ((r.deliveryLattitude).getD .vNone) with
  | some q => decide (-90 ≤ q ∧ q ≤ 90)
  | none => false

/-- C4 counterexample: a row whose latitude cell is the numeric string
1000.0 passes `validate_row` (which only checks that `float()` succeeds),
although the claimed range condition latitude ∈ [-90, 90] fails, so
validation passing is not equivalent to the claimed conditions. -/
theorem validate_range_cex :
    validate_row exRow4 = Except.ok none
      ∧ specLatitudeInRange exRow4 = false := by decide

/-- C4 amended: `validate_row` returns none iff all ten required fields
are present and non-empty, both coordinate cells convert under `float()`
(no range check), the pickup time is a string ending with `Z` (no
future-instant check), the email is a string containing `@` with a dot
after the last `@`, the phone string has length at least 8, and the
pickup address book id is a string of length at least 30; otherwise it
returns the first violation in that order (or raises on non-string email
or id cells). -/
theorem validate_none_iff_amended (r : Row) :
    validate_row r = Except.ok none ↔
      (missingFields r = [] ∧ coordsNumeric r = true ∧ pickupTimeOk r = true
        ∧ emailCellOk r = true ∧ phoneLenOk r = true ∧ pickupIdOk r = true) := by
  rw [validate_row_eq_ok_none_iff]
  unfold validationChecks
  simp [List.isEmpty_iff, and_assoc]

theorem cellMissing_false_elim (c : Option PyVal) (h : cellMissing c = false) :
    ∃ v, c = some v ∧ v ≠ .vNone ∧ v ≠ .vStr "" := by
  cases c with
  | none => simp [cellMissing] at h
  | some v =>
    refine ⟨v, rfl, ?_, ?_⟩ <;> rintro rfl <;>
      simp [cellMissing, PyVal.isNoneOrEmpty] at h

/-- C10 counterexample: a row whose `client_name` cell holds the Python
number `0` passes `validate_row` (the presence check only rejects `None`
and the empty string), yet the packaged `client_details.name` is falsy,
so the missing-contact error branch of `create_order_payload` is reached
from a fully validated row. -/
theorem validated_contact_cex :
    validate_row exRow10 = Except.ok none
      ∧ ((mkClientDetails exRow10).name).truthy = false
      ∧ create_order_payload 42 exQd10 (mkClientDetails exRow10)
          = .error (.missingClientDetails (.vNum 0) (.vStr "35912345678")
              (.vStr "alice@example.com")) := by decide

/-- C10 amended: for every row that passes `validate_row` and whose
`client_name` cell is not the falsy number `0`, the packaged
`client_details` carries the name, phone and email of the row, all three
are truthy, and `create_order_payload` never reaches its missing-contact
error branch on that contact record. -/
theorem validated_contact_amended (r : Row)
    (hv : validate_row r = Except.ok none)
    (hname : r.client_name ≠ some (.vNum 0)) :
    r.client_name = some ((mkClientDetails r).name)
      ∧ r.client_phone = some ((mkClientDetails r).phone)
      ∧ r.client_email = some ((mkClientDetails r).email)
      ∧ ((mkClientDetails r).name).truthy = true
      ∧ ((mkClientDetails r).phone).truthy = true
      ∧ ((mkClientDetails r).email).truthy = true
      ∧ ∀ (now : ℕ) (qd : QuoteData),
          ∃ p, create_order_payload now qd (mkClientDetails r) = Except.ok p := by
  have hc := (validate_row_eq_ok_none_iff r).mp hv
  unfold validationChecks at hc
  simp only [Bool.and_eq_true, List.isEmpty_iff] at hc
  obtain ⟨⟨⟨⟨⟨hmiss, hcoords⟩, htime⟩, hemail⟩, hphone⟩, hpid⟩ := hc
  rw [missingFields_eq_nil_iff] at hmiss
  obtain ⟨h_id, h_name, h_phone, h_email, -, -, -, -, -, -⟩ := hmiss
  obtain ⟨vn, hvn, hvnN, hvnE⟩ := cellMissing_false_elim _ h_name
  obtain ⟨vp, hvp, hvpN, hvpE⟩ := cellMissing_false_elim _ h_phone
  obtain ⟨ve, hve, hveN, hveE⟩ := cellMissing_false_elim _ h_email
  have hcdn : (mkClientDetails r).name = vn := by simp [mkClientDetails, hvn]
  have hcdp : (mkClientDetails r).phone = vp := by simp [mkClientDetails, hvp]
  have hcde : (mkClientDetails r).email = ve := by simp [mkClientDetails, hve]
  have htn : vn.truthy = true := by
    cases vn with
    | vNone => exact absurd rfl hvnN
    | vStr s =>
      simp only [PyVal.truthy, Bool.not_eq_true', beq_eq_false_iff_ne, ne_eq]
      intro hs
      exact hvnE (by rw [hs])
    | vNum q =>
      simp only [PyVal.truthy, Bool.not_eq_true', beq_eq_false_iff_ne, ne_eq]
      intro hq
      rw [hq] at hvn
      exact hname hvn
  have htp : vp.truthy = true := by
    cases vp with
    | vNone => exact absurd rfl hvpN
    | vStr s =>
      simp only [PyVal.truthy, Bool.not_eq_true', beq_eq_false_iff_ne, ne_eq]
      intro hs
      exact hvpE (by rw [hs])
    | vNum q =>
      simp only [PyVal.truthy, Bool.not_eq_true', beq_eq_false_iff_ne, ne_eq]
      intro hq
      rw [hq] at hvp
      unfold phoneLenOk at hphone
      rw [hvp] at hphone
      simp only [Option.getD_some] at hphone
      exact absurd hphone (by decide)
  have hte : ve.truthy = true := by
    unfold emailCellOk at hemail
    rw [hve] at hemail
    simp only [Option.getD_some] at hemail
    cases ve with
    | vNone => exact absurd rfl hveN
    | vStr s =>
      simp only [PyVal.truthy, Bool.not_eq_true', beq_eq_false_iff_ne, ne_eq]
      intro hs
      rw [hs] at hemail
      exact absurd hemail (by decide)
    | vNum q => simp at hemail
  refine ⟨by rw [hcdn]; exact hvn, by rw [hcdp]; exact hvp, by rw [hcde]; exact hve,
    by rw [hcdn]; exact htn, by rw [hcdp]; exact htp, by rw [hcde]; exact hte, ?_⟩
  intro now qd
  exact ⟨_, create_order_payload_ok now qd _ (by rw [hcdn]; exact htn)
    (by rw [hcdp]; exact htp) (by rw [hcde]; exact hte)⟩

/-- C10 witness: the amended statement instantiated on the valid example
row. -/
theorem validated_contact_amended_witness :
    ((mkClientDetails exRow).name).truthy = true
      ∧ ∃ p, create_order_payload 5 exQdGood (mkClientDetails exRow) = Except.ok p :=
  ⟨(validated_contact_amended exRow (by decide) (by decide)).2.2.2.1,
   (validated_contact_amended exRow (by decide) (by decide)).2.2.2.2.2.2 5 exQdGood⟩

/-- C7: `create_order_payload` raises whenever any contact field of
`client_details` is falsy, and whenever it returns a payload the contact
block is exactly the name, phone and email of `client_details` — no
default or placeholder is ever substituted. -/
theorem no_placeholder_contact (now : ℕ) (qd : QuoteData) (cd : ClientDetails) :
    ((cd.name.truthy = false ∨ cd.phone.truthy = false ∨ cd.email.truthy = false) →
      create_order_payload now qd cd
        = .error (.missingClientDetails cd.name cd.phone cd.email))
      ∧ (∀ p, create_order_payload now qd cd = Except.ok p →
          p.contact_name = cd.name ∧ p.contact_phone = cd.phone
            ∧ p.contact_email = cd.email) := by
  constructor
  · exact create_order_payload_error now qd cd
  · intro p hp
    unfold create_order_payload at hp
    split at hp
    · cases hp
    · cases hp
      exact ⟨rfl, rfl, rfl⟩

/-- An empty-name contact record. -/
def exCdBad : ClientDetails :=
  { client_id := .vStr "C-003", name := .vStr "", phone := .vStr "p1234567",
    email := .vStr "a@b.c" }

/-- The payload `create_order_payload` returns at clock value 3 on
`exQdGood` with the contact record of `exRow`. -/
def exPayloadGood : OrderPayload :=
  { contact_name := .vStr "Alice Client", contact_phone := .vStr "35912345678",
    contact_email := .vStr "alice@example.com", pickupOrderCode := "ORD31",
    contentType := "FOOD", description := .vStr "Lunch Menu A" }

/-- C7 witness: the empty-name record is rejected and a complete record
yields exactly its own contact block. -/
theorem no_placeholder_contact_witness :
    create_order_payload 7 exQdGood exCdBad
        = .error (.missingClientDetails (.vStr "") (.vStr "p1234567") (.vStr "a@b.c"))
      ∧ (exPayloadGood.contact_name = (mkClientDetails exRow).name
          ∧ exPayloadGood.contact_phone = (mkClientDetails exRow).phone
          ∧ exPayloadGood.contact_email = (mkClientDetails exRow).email) :=
  ⟨(no_placeholder_contact 7 exQdGood exCdBad).1 (Or.inl (by decide)),
   (no_placeholder_contact 3 exQdGood (mkClientDetails exRow)).2 exPayloadGood (by decide)⟩

theorem length_filter_split (p : QuoteSuccess → Bool) (l : List QuoteSuccess) :
    (l.filter p).length + (l.filter (fun s => !(p s))).length = l.length := by
  induction l with
  | nil => rfl
  | cons a l ih =>
    by_cases h : p a = true <;> simp [List.filter_cons, h] <;> omega

/-- C8: `extract_quote_ids_from_successes` keeps exactly the successes
with a truthy quote id, in input order, skipping the rest; when exactly
one success lacks a quote id, the extracted batch is one shorter than the
input. -/
theorem extract_context_filtering (l : List QuoteSuccess)
    (h : (l.filter (fun s => !(hasQuoteId s))).length = 1) :
    extract_quote_ids_from_successes l
        = (l.filter hasQuoteId).map mkQuoteDataOfSuccess
      ∧ (extract_quote_ids_from_successes l).length = l.length - 1 := by
  refine ⟨extract_eq_filter_map l, ?_⟩
  rw [extract_eq_filter_map l, List.length_map]
  have hsplit := length_filter_split hasQuoteId l
  omega

/-- A quote success without a quote id in its response. -/
def exSuccNoId : QuoteSuccess := mkQuoteSuccess 2 exRow2 exRespErr

/-- Three quote successes, the middle one lacking a quote id. -/
def exSuccList : List QuoteSuccess :=
  [mkQuoteSuccess 1 exRow exRespOk, exSuccNoId, mkQuoteSuccess 3 exRow2 exRespOk]

/-- C8 witness: on a list of three successes with exactly one missing
quote id, extraction keeps two contexts. -/
theorem extract_context_filtering_witness :
    (exSuccList.filter (fun s => !(hasQuoteId s))).length = 1
      ∧ (extract_quote_ids_from_successes exSuccList).length = exSuccList.length - 1 :=
  ⟨by decide, (extract_context_filtering exSuccList (by decide)).2⟩

/-- C1: every quote-stage success with a truthy quote id is reproduced by
the order-stage bridge as a context whose client, restaurant and order
sub-records are identical to the ones stored in the success at quote
time. -/
theorem context_roundtrip (sendQ : ℕ → QuotePayload → Bool × Response)
    (rows : List Row) (sq : QuoteSummary)
    (_hrun : process_orders_final sendQ rows = Except.ok sq)
    (s : QuoteSuccess) (hs : s ∈ sq.successes) (hq : hasQuoteId s = true) :
    mkQuoteDataOfSuccess s ∈ extract_quote_ids_from_successes sq.successes
      ∧ (mkQuoteDataOfSuccess s).client_details = s.client_details
      ∧ (mkQuoteDataOfSuccess s).restaurant_details = s.restaurant_details
      ∧ (mkQuoteDataOfSuccess s).order_details = s.order_details := by
  refine ⟨?_, rfl, rfl, rfl⟩
  unfold extract_quote_ids_from_successes
  exact List.mem_filterMap.mpr ⟨s, hs, by simp [hq]⟩

/-- C1 witness: on a one-row run under the always-successful oracle, the
bridge reproduces the stored sub-records. -/
theorem context_roundtrip_witness :
    mkQuoteDataOfSuccess (mkQuoteSuccess 1 exRow exRespOk)
        ∈ extract_quote_ids_from_successes exQuoteSummary.successes
      ∧ (mkQuoteDataOfSuccess (mkQuoteSuccess 1 exRow exRespOk)).client_details
          = (mkQuoteSuccess 1 exRow exRespOk).client_details
      ∧ (mkQuoteDataOfSuccess (mkQuoteSuccess 1 exRow exRespOk)).restaurant_details
          = (mkQuoteSuccess 1 exRow exRespOk).restaurant_details
      ∧ (mkQuoteDataOfSuccess (mkQuoteSuccess 1 exRow exRespOk)).order_details
          = (mkQuoteSuccess 1 exRow exRespOk).order_details :=
  context_roundtrip exSendQok [exRow] exQuoteSummary (by rfl)
    (mkQuoteSuccess 1 exRow exRespOk) (by decide) (by decide)

/-- C9: in both stage summaries the success rate is 0 when the total is 0,
and exactly 100 when the failure list is empty and at least one success
exists. -/
theorem success_rate_boundaries :
    (∀ (sendQ : ℕ → QuotePayload → Bool × Response) (rows : List Row) (sq : QuoteSummary),
        process_orders_final sendQ rows = Except.ok sq →
          (sq.total = 0 → sq.success_rate = 0)
            ∧ (sq.failures = [] → sq.successes ≠ [] → sq.success_rate = 100))
      ∧ (∀ (sendO : ℕ → PyVal → OrderPayload → Bool × Response) (clock : ℕ → ℕ)
          (qdl : List QuoteData) (so : OrderSummary),
          process_orders_from_quotes_final sendO clock qdl = Except.ok so →
            (so.total_processed = 0 → so.success_rate = 0)
              ∧ (so.failed_orders = [] → so.successful_orders ≠ [] → so.success_rate = 100)) := by
  constructor
  · intro sendQ rows sq hrun
    unfold process_orders_final at hrun
    cases hl : quoteLoop sendQ 1 rows [] [] with
    | error e => rw [hl] at hrun; cases hrun
    | ok sf =>
      obtain ⟨S, F⟩ := sf
      rw [hl] at hrun
      simp only [Except.map] at hrun
      cases hrun
      constructor
      · intro h0
        simp only at h0
        simp [h0]
      · intro hf hs
        simp only at hf hs
        subst hf
        have hn : S.length ≠ 0 := by
          intro h0
          exact hs (List.length_eq_zero.mp h0)
        have hpos : 0 < S.length := Nat.pos_of_ne_zero hn
        simp only [List.length_nil, Nat.add_zero, Nat.cast_zero, add_zero]
        rw [if_pos hpos]
        rw [div_self (by exact_mod_cast hn), one_mul]
  · intro sendO clock qdl so hrun
    unfold process_orders_from_quotes_final at hrun
    cases hl : orderLoop sendO clock 1 qdl [] [] with
    | error e => rw [hl] at hrun; cases hrun
    | ok sf =>
      obtain ⟨S, F⟩ := sf
      have hlen := orderLoop_ok_length sendO clock qdl 1 [] [] (S, F) hl
      simp only [List.length_nil] at hlen
      rw [hl] at hrun
      simp only [Except.map] at hrun
      cases hrun
      constructor
      · intro h0
        simp only at h0
        simp [h0]
      · intro hf hs
        simp only at hf hs
        subst hf
        have hn : S.length ≠ 0 := by
          intro h0
          exact hs (List.length_eq_zero.mp h0)
        have hq : qdl.length = S.length := by
          simp at hlen
          omega
        have hq0 : ¬ qdl.length = 0 := by omega
        simp only [hq]
        rw [if_neg (by omega)]
        rw [div_self (by exact_mod_cast hn), one_mul]

/-- The order summary for an empty context list. -/
def exOrderSummary0 : OrderSummary :=
  { total_processed := 0, successful_orders := [], failed_orders := [],
    success_rate := 0 }

/-- C9 witness: an all-success one-row quote run has rate 100, an empty
order batch has rate 0. -/
theorem success_rate_boundaries_witness :
    exQuoteSummary.success_rate = 100 ∧ exOrderSummary0.success_rate = 0 :=
  ⟨(success_rate_boundaries.1 exSendQok [exRow] exQuoteSummary (by rfl)).2
      rfl (by decide),
   (success_rate_boundaries.2 exSendOok exClock [] exOrderSummary0 (by rfl)).1 rfl⟩

/-- C5 counterexample: two due records enter the quote stage on a Monday,
the carrier accepts only the first quote, and the reconciled summary
reports `total_processed = 1` — the number of quote successes — not the
2 due records the claim requires. -/
theorem merged_total_cex :
    (process_daily_orders 0 [exRow, exRow2] exSendQfirst exSendOok exClock).map
        (fun res => res.total_processed) = Except.ok 1
      ∧ (filter_orders_for_today 0 [exRow, exRow2]).length = 2 := by
  constructor
  · rfl
  · decide

/-- C5 amended: the reconciled summary of the order stage reports
`total_processed` equal to the number of contexts entering the order
stage (the quote successes), every context is accounted for as a success
or a failure, and the success rate is successes over that total times
100, or 0 when the total is 0. -/
theorem merged_total_amended (sendO : ℕ → PyVal → OrderPayload → Bool × Response)
    (clock : ℕ → ℕ) (qdl : List QuoteData) (so : OrderSummary)
    (hrun : process_orders_from_quotes_final sendO clock qdl = Except.ok so) :
    so.total_processed = qdl.length
      ∧ so.successful_orders.length + so.failed_orders.length = qdl.length
      ∧ so.success_rate = (if qdl.length = 0 then 0
          else (so.successful_orders.length : ℚ) / (qdl.length : ℚ) * 100) := by
  unfold process_orders_from_quotes_final at hrun
  cases hl : orderLoop sendO clock 1 qdl [] [] with
  | error e => rw [hl] at hrun; cases hrun
  | ok sf =>
    obtain ⟨S, F⟩ := sf
    have hlen := orderLoop_ok_length sendO clock qdl 1 [] [] (S, F) hl
    simp only [List.length_nil] at hlen
    rw [hl] at hrun
    simp only [Except.map] at hrun
    cases hrun
    refine ⟨rfl, by simp at hlen ⊢; omega, rfl⟩

/-- The order summary for the single context `exQdGood` under the
always-successful oracle. -/
def exOrderSummary1 : OrderSummary :=
  { total_processed := 1,
    successful_orders := [mkOrderSuccess 1 exQdGood exOrderResp "ORD421"],
    failed_orders := [],
    success_rate := if (1 : ℕ) = 0 then 0
      else ((1 : ℕ) : ℚ) / ((1 : ℕ) : ℚ) * 100 }

/-- C5 witness: the amended statement on a one-context batch. -/
theorem merged_total_amended_witness :
    exOrderSummary1.total_processed = [exQdGood].length
      ∧ exOrderSummary1.successful_orders.length
          + exOrderSummary1.failed_orders.length = [exQdGood].length
      ∧ exOrderSummary1.success_rate = (if [exQdGood].length = 0 then 0
          else ((exOrderSummary1.successful_orders.length : ℚ)
            / ([exQdGood].length : ℚ) * 100)) :=
  merged_total_amended exSendOok exClock [exQdGood] exOrderSummary1 (by rfl)

/-- C2 counterexample: a batch of two contexts whose first has an empty
client name aborts wholesale with the uncaught missing-details error —
the record is not appended to the failure list and the second, fully
valid context is never processed, contradicting per-record containment. -/
theorem order_batch_abort_cex :
    process_orders_from_quotes_final exSendOok exClock [exQdBad, exQdGood]
      = .error (.missingClientDetails (.vStr "") (.vStr "35912345678")
          (.vStr "alice@example.com")) := by decide

/-- C2 amended: per-record carrier failures are contained — when every
context carries a complete contact, the batch always returns a summary
in which every record is accounted for as a success or failure; but a
record with an incomplete contact raises an error that aborts the whole
batch (the counterexample), rather than being appended to the failure
list. -/
theorem order_batch_containment (sendO : ℕ → PyVal → OrderPayload → Bool × Response)
    (clock : ℕ → ℕ) (qdl : List QuoteData)
    (h : ∀ qd ∈ qdl, contactComplete qd = true) :
    ∃ so, process_orders_from_quotes_final sendO clock qdl = Except.ok so
      ∧ so.successful_orders.length + so.failed_orders.length = qdl.length := by
  obtain ⟨out, hout⟩ := orderLoop_ok_of_complete sendO clock qdl 1 [] [] h
  obtain ⟨S, F⟩ := out
  have hlen := orderLoop_ok_length sendO clock qdl 1 [] [] (S, F) hout
  simp only [List.length_nil] at hlen
  refine ⟨{ total_processed := qdl.length, successful_orders := S, failed_orders := F,
            success_rate := if qdl.length = 0 then 0
              else (S.length : ℚ) / (qdl.length : ℚ) * 100 }, ?_, ?_⟩
  · unfold process_orders_from_quotes_final
    rw [hout]
    rfl
  · show S.length + F.length = qdl.length
    omega

/-- C2 witness: with a failing carrier, a complete-contact one-record
batch still returns a summary accounting for the record. -/
theorem order_batch_containment_witness :
    ∃ so, process_orders_from_quotes_final exSendOfail exClock [exQdGood] = Except.ok so
      ∧ so.successful_orders.length + so.failed_orders.length = [exQdGood].length :=
  order_batch_containment exSendOfail exClock [exQdGood] (by decide)

/-- C3 counterexample: one due record whose quote request is rejected
gives a run with zero successes at the quote stage, yet the entry point
exits with code 0 (the early-return dict carries no `error` key),
contradicting the claimed non-zero exit on a zero-success stage. -/
theorem exit_code_cex :
    (process_daily_orders 0 [exRow] exSendQfail exSendOok exClock).map
        (fun res => res.successful_orders.length) = Except.ok 0
      ∧ mainExitCode (some [exRow]) 0 exSendQfail exSendOok exClock = 0 := by
  constructor
  · rfl
  · rfl

/-- C3 amended: the entry point exits 0 exactly when the spreadsheet
loads and the pipeline raises no uncaught exception, regardless of how
many successes either stage produced; it exits 1 exactly when loading
fails (or an uncaught exception crashes the interpreter). -/
theorem exit_code_amended (current_weekday : ℕ) (rows : List Row)
    (sendQ : ℕ → QuotePayload → Bool × Response)
    (sendO : ℕ → PyVal → OrderPayload → Bool × Response) (clock : ℕ → ℕ) :
    (mainExitCode (some rows) current_weekday sendQ sendO clock = 0
        ↔ ∃ res, process_daily_orders current_weekday rows sendQ sendO clock
            = Except.ok res)
      ∧ mainExitCode none current_weekday sendQ sendO clock = 1 := by
  constructor
  · unfold mainExitCode
    cases h : process_daily_orders current_weekday rows sendQ sendO clock with
    | error e => simp [h]
    | ok res => simp [h]
  · rfl
